import Mathlib

/-!
Shallow embedding of the admission-control and observability core of the
ai-coding-mcp-server repository:

* `src/utils/security.py`  — `SecurityManager` (allow-list, sliding-window
  rate limiter, input sanitisation);
* `src/utils/metrics.py`   — `MetricsCollector` (request/error buffers,
  per-tool usage counters and latency histories, derived aggregates);
* `src/server.py`          — the `MCPServer.handle_call_tool` dispatcher,
  `_route_tool_call` prefix routing, and the stdio `main` loop.

Timestamps: the Python code uses `time.time()` / `datetime.now()` floats but
only ever subtracts and compares them, so wall-clock instants are modelled as
integers (seconds), passed explicitly to each function that reads the clock.
Python dicts are modelled as association lists, deques as lists (front =
oldest element).
-/

namespace MCP

/-! ### Association-list helpers (Python `dict` / `defaultdict`) -/

/-- Look up a key's window in `rate_limits`; a missing key reads as the empty
deque that `defaultdict(lambda: deque())` would create. -/
def getWindow (m : List (String × List Int)) (k : String) : List Int :=
  match List.lookup k m with
  | some w => w
  | none => []

/-- Store `w` as the binding of `k`: replace the first existing binding or
append a fresh one (the effect of writing through `rate_limits[k]`). -/
def setWindow (m : List (String × List Int)) (k : String) (w : List Int) :
    List (String × List Int) :=
  match m with
  | [] => [(k, w)]
  | (k', w') :: rest =>
      if k' = k then (k, w) :: rest else (k', w') :: setWindow rest k w

/-- `dict.__setitem__` on a counter dict (replace the first binding of `k`,
or append a fresh one).  Generic in the key type: `tool_usage` uses `String`
keys while `get_metrics`' error breakdown uses `error.get("tool")`, which can
be `None`. -/
def setCount {κ : Type} [BEq κ] (m : List (κ × Nat)) (k : κ) (v : Nat) :
    List (κ × Nat) :=
  match m with
  | [] => [(k, v)]
  | (k', v') :: rest =>
      if k' == k then (k, v) :: rest else (k', v') :: setCount rest k v

/-- `defaultdict(int)` increment: `m[k] += 1`. -/
def bumpCount {κ : Type} [BEq κ] (m : List (κ × Nat)) (k : κ) :
    List (κ × Nat) :=
  setCount m k ((List.lookup k m).getD 0 + 1)

/-- `deque(maxlen=cap).append x`: append and evict the oldest entries beyond
the capacity. -/
def appendCapped (cap : Nat) (xs : List α) (x : α) : List α :=
  let ys := xs ++ [x]
  ys.drop (ys.length - cap)

/-! ### SecurityManager (src/utils/security.py) -/

/-- The default allow-list built in `SecurityManager.__post_init__`
(src/utils/security.py lines 24-33). -/
def defaultAllowedTools : List String :=
  ["file_read", "file_write", "file_search", "file_list",
   "system_info", "system_command", "system_package",
   "web_scrape", "web_api", "web_download",
   "code_analyze", "code_format", "code_lint",
   "git_status", "git_commit", "git_push", "git_pull",
   "db_query", "db_execute",
   "ai_generate", "ai_analyze", "ai_translate"]

/-- The mutable state of `SecurityManager` that the rate limiter touches:
per-tool deques of admitted timestamps plus the per-minute cap. -/
structure SecurityManager where
  allowed_tools : List String := defaultAllowedTools
  rate_limits : List (String × List Int) := []
  max_requests_per_minute : Nat := 60
deriving DecidableEq, Repr

/-- `SecurityManager.is_tool_allowed` (security.py lines 45-47). -/
def is_tool_allowed (sm : SecurityManager) (tool_name : String) : Bool :=
  sm.allowed_tools.contains tool_name

/-- `SecurityManager.check_rate_limit` (security.py lines 49-64), with the
clock passed explicitly.  The `while ... popleft()` loop removes entries from
the front while they are `< now - 60`, i.e. `dropWhile`; if the surviving
window has reached the cap the call is rejected (and nothing is appended),
otherwise `now` is appended and the call is admitted. -/
def check_rate_limit (sm : SecurityManager) (tool_name : String) (now : Int) :
    Bool × SecurityManager :=
  let minute_ago := now - 60
  let w := getWindow sm.rate_limits tool_name
  let w' := w.dropWhile (fun t => t < minute_ago)
  if sm.max_requests_per_minute ≤ w'.length then
    (false, { sm with rate_limits := setWindow sm.rate_limits tool_name w' })
  else
    (true,
     { sm with rate_limits := setWindow sm.rate_limits tool_name (w' ++ [now]) })

/-- `SecurityManager.sanitize_input` (security.py lines 114-122) over the
code points of the input string: first `replace('\x00', '')`, then keep only
characters with `ord(char) >= 32` or in `'\n\t'`. -/
def sanitize_input (text : List Char) : List Char :=
  let t1 := text.filter (fun c => c != Char.ofNat 0)
  t1.filter (fun c => decide (32 ≤ c.toNat) || c == '\n' || c == '\t')

/-! ### Basic lemmas about the association-list helpers -/

theorem lookup_setWindow_self (m : List (String × List Int)) (k : String)
    (w : List Int) : List.lookup k (setWindow m k w) = some w := by
  induction m with
  | nil => simp [setWindow, List.lookup]
  | cons p rest ih =>
      obtain ⟨k', w'⟩ := p
      by_cases h : k' = k
      · simp [setWindow, h, List.lookup]
      · simp only [setWindow, if_neg h, List.lookup]
        have hne : (k == k') = false := by
          simp [beq_iff_eq]; exact fun hk => h hk.symm
        simp [hne, ih]

theorem lookup_setWindow_ne (m : List (String × List Int)) (k k' : String)
    (w : List Int) (h : k' ≠ k) :
    List.lookup k' (setWindow m k w) = List.lookup k' m := by
  induction m with
  | nil =>
      have hne : (k' == k) = false := by simp [beq_iff_eq]; exact h
      simp [setWindow, List.lookup, hne]
  | cons p rest ih =>
      obtain ⟨k₀, w₀⟩ := p
      by_cases h0 : k₀ = k
      · subst h0
        have hne : (k' == k₀) = false := by simp [beq_iff_eq]; exact h
        simp [setWindow, List.lookup, hne]
      · simp only [setWindow, if_neg h0, List.lookup]
        by_cases h1 : k' = k₀
        · subst h1; simp
        · have hne : (k' == k₀) = false := by simp [beq_iff_eq]; exact h1
          simp [hne, ih]

theorem getWindow_setWindow_self (m : List (String × List Int)) (k : String)
    (w : List Int) : getWindow (setWindow m k w) k = w := by
  simp [getWindow, lookup_setWindow_self]

theorem getWindow_setWindow_ne (m : List (String × List Int)) (k k' : String)
    (w : List Int) (h : k' ≠ k) :
    getWindow (setWindow m k w) k' = getWindow m k' := by
  simp [getWindow, lookup_setWindow_ne m k k' w h]

/-- Dropping with the same predicate twice drops nothing new. -/
theorem dropWhile_idem (p : α → Bool) (l : List α) :
    (l.dropWhile p).dropWhile p = l.dropWhile p := by
  induction l with
  | nil => simp
  | cons x xs ih =>
      by_cases h : p x
      · simp [List.dropWhile, h, ih]
      · simp [List.dropWhile, h]

/-- The admission decision of `check_rate_limit` depends only on the key's
current window and the cap. -/
theorem check_rate_limit_fst (sm : SecurityManager) (k : String) (now : Int) :
    (check_rate_limit sm k now).1 =
      decide (((getWindow sm.rate_limits k).dropWhile
          (fun t => t < now - 60)).length < sm.max_requests_per_minute) := by
  by_cases hc : sm.max_requests_per_minute ≤
      ((getWindow sm.rate_limits k).dropWhile (fun t => t < now - 60)).length
  · simp [check_rate_limit, hc, Nat.not_lt.mpr hc]
  · simp [check_rate_limit, hc, Nat.lt_of_not_le hc]

/-- On rejection the stored window is the lazily-evicted one and the cap is
unchanged. -/
theorem check_rate_limit_reject_state (sm : SecurityManager) (k : String)
    (now : Int)
    (hc : sm.max_requests_per_minute ≤
      ((getWindow sm.rate_limits k).dropWhile (fun t => t < now - 60)).length) :
    (check_rate_limit sm k now).2.rate_limits =
      setWindow sm.rate_limits k
        ((getWindow sm.rate_limits k).dropWhile (fun t => t < now - 60)) ∧
    (check_rate_limit sm k now).2.max_requests_per_minute =
      sm.max_requests_per_minute := by
  constructor <;> simp [check_rate_limit, hc]

/-! ### Claim C1: sliding-window scenario with max = 3 -/

/-- A limiter configured with `max_requests_per_minute = 3` and no history. -/
def c1Limiter : SecurityManager :=
  { allowed_tools := defaultAllowedTools, rate_limits := [],
    max_requests_per_minute := 3 }

def c1Call1 : Bool × SecurityManager := check_rate_limit c1Limiter "k" 0
def c1Call2 : Bool × SecurityManager := check_rate_limit c1Call1.2 "k" 1
def c1Call3 : Bool × SecurityManager := check_rate_limit c1Call2.2 "k" 2
def c1Call4 : Bool × SecurityManager := check_rate_limit c1Call3.2 "k" 3
def c1Call5 : Bool × SecurityManager := check_rate_limit c1Call4.2 "k" 61

/-- C1: with `max_requests_per_minute = 3`, successive `check_rate_limit "k"`
calls at times 0, 1, 2 are admitted, a 4th call at time 3 is rejected, and a
5th call at time 61 is admitted again because the `t = 0` timestamp has aged
out of the trailing 60-second window. -/
theorem sliding_window_admits_three_rejects_fourth_readmits_after_expiry :
    c1Call1.1 = true ∧ c1Call2.1 = true ∧ c1Call3.1 = true ∧
    c1Call4.1 = false ∧ c1Call5.1 = true := by
  decide

/-! ### Claim C5: a rejected check consumes no slot -/

/-- C5: whenever `check_rate_limit` rejects (`false`), no timestamp was
appended: the key's stored window is a suffix of the previous one (only lazy
eviction happened), its length does not grow, and re-running the rejected
check at the same instant is rejected again without extending the window. -/
theorem rejected_rate_limit_check_consumes_no_slot (sm : SecurityManager)
    (k : String) (now : Int)
    (h : (check_rate_limit sm k now).1 = false) :
    getWindow (check_rate_limit sm k now).2.rate_limits k <:+
      getWindow sm.rate_limits k ∧
    (getWindow (check_rate_limit sm k now).2.rate_limits k).length ≤
      (getWindow sm.rate_limits k).length ∧
    (check_rate_limit (check_rate_limit sm k now).2 k now).1 = false := by
  by_cases hc : sm.max_requests_per_minute ≤
      ((getWindow sm.rate_limits k).dropWhile (fun t => t < now - 60)).length
  · obtain ⟨hres, hmax⟩ := check_rate_limit_reject_state sm k now hc
    have hwin : getWindow (check_rate_limit sm k now).2.rate_limits k =
        (getWindow sm.rate_limits k).dropWhile (fun t => t < now - 60) := by
      rw [hres, getWindow_setWindow_self]
    refine ⟨?_, ?_, ?_⟩
    · rw [hwin]; exact List.dropWhile_suffix _
    · rw [hwin]; exact (List.dropWhile_suffix _).length_le
    · rw [check_rate_limit_fst, hwin, hmax, dropWhile_idem]
      simp [Nat.not_lt.mpr hc]
  · exfalso
    have : (check_rate_limit sm k now).1 = true := by
      simp [check_rate_limit, hc]
    rw [this] at h; exact Bool.noConfusion h

/-- Witness for C5 at a concrete rejected call: a limiter with cap 0 rejects
and its window stays empty. -/
theorem rejected_rate_limit_check_consumes_no_slot_witness :
    (check_rate_limit
        { allowed_tools := [], rate_limits := [],
          max_requests_per_minute := 0 } "file_read" 5).1 = false ∧
    (getWindow (check_rate_limit
        { allowed_tools := [], rate_limits := [],
          max_requests_per_minute := 0 } "file_read" 5).2.rate_limits
        "file_read").length ≤
      (getWindow
        ({ allowed_tools := [], rate_limits := [],
           max_requests_per_minute := 0 } : SecurityManager).rate_limits
        "file_read").length :=
  ⟨by decide,
   (rejected_rate_limit_check_consumes_no_slot
      { allowed_tools := [], rate_limits := [], max_requests_per_minute := 0 }
      "file_read" 5 (by decide)).2.1⟩

/-! ### Claim C6: independence across keys -/

/-- C6: a `check_rate_limit` call for key `k1` neither changes the stored
window of a different key `k2` nor the admission decision a subsequent check
for `k2` would make. -/
theorem rate_limit_keys_independent (sm : SecurityManager) (k1 k2 : String)
    (now1 now2 : Int) (h : k1 ≠ k2) :
    getWindow (check_rate_limit sm k1 now1).2.rate_limits k2 =
      getWindow sm.rate_limits k2 ∧
    (check_rate_limit (check_rate_limit sm k1 now1).2 k2 now2).1 =
      (check_rate_limit sm k2 now2).1 := by
  have hwin : getWindow (check_rate_limit sm k1 now1).2.rate_limits k2 =
      getWindow sm.rate_limits k2 := by
    by_cases hc : sm.max_requests_per_minute ≤
        ((getWindow sm.rate_limits k1).dropWhile (fun t => t < now1 - 60)).length
    · simp only [check_rate_limit, if_pos hc]
      exact getWindow_setWindow_ne _ _ _ _ (Ne.symm h)
    · simp only [check_rate_limit, if_neg hc]
      exact getWindow_setWindow_ne _ _ _ _ (Ne.symm h)
  have hmax : (check_rate_limit sm k1 now1).2.max_requests_per_minute =
      sm.max_requests_per_minute := by
    by_cases hc : sm.max_requests_per_minute ≤
        ((getWindow sm.rate_limits k1).dropWhile (fun t => t < now1 - 60)).length
    · simp [check_rate_limit, hc]
    · simp [check_rate_limit, hc]
  refine ⟨hwin, ?_⟩
  rw [check_rate_limit_fst, check_rate_limit_fst, hwin, hmax]

/-- Witness for C6: exhausting the limit for `"file_read"` leaves the
`"git_status"` window and admission unchanged. -/
theorem rate_limit_keys_independent_witness :
    getWindow (check_rate_limit
        { allowed_tools := defaultAllowedTools,
          rate_limits := [("file_read", [1, 2, 3])],
          max_requests_per_minute := 3 } "file_read" 4).2.rate_limits
      "git_status" =
      getWindow [("file_read", [1, 2, 3])] "git_status" :=
  (rate_limit_keys_independent
      { allowed_tools := defaultAllowedTools,
        rate_limits := [("file_read", [1, 2, 3])],
        max_requests_per_minute := 3 }
      "file_read" "git_status" 4 4 (by decide)).1

/-! ### Claim C10: sanitize_input is idempotent and its output is clean -/

/-- C10: `sanitize_input` is idempotent, and every character of its output is
neither a null byte nor any control character below code point 32 other than
newline and tab. -/
theorem sanitize_input_idempotent_and_clean (s : List Char) :
    sanitize_input (sanitize_input s) = sanitize_input s ∧
    ∀ c, c ∈ sanitize_input s →
      c ≠ Char.ofNat 0 ∧ (c.toNat < 32 → c = '\n' ∨ c = '\t') := by
  have hmem : ∀ c ∈ sanitize_input s,
      (c != Char.ofNat 0) = true ∧
      (decide (32 ≤ c.toNat) || c == '\n' || c == '\t') = true := by
    intro c hc
    simp only [sanitize_input, List.mem_filter] at hc
    exact ⟨hc.1.2, hc.2⟩
  constructor
  · have h1 : (sanitize_input s).filter (fun c => c != Char.ofNat 0) =
        sanitize_input s :=
      List.filter_eq_self.mpr (fun c hc => (hmem c hc).1)
    have h2 : (sanitize_input s).filter
        (fun c => decide (32 ≤ c.toNat) || c == '\n' || c == '\t') =
        sanitize_input s :=
      List.filter_eq_self.mpr (fun c hc => (hmem c hc).2)
    calc sanitize_input (sanitize_input s)
        = ((sanitize_input s).filter (fun c => c != Char.ofNat 0)).filter
            (fun c => decide (32 ≤ c.toNat) || c == '\n' || c == '\t') := rfl
      _ = sanitize_input s := by rw [h1, h2]
  · intro c hc
    obtain ⟨h1, h2⟩ := hmem c hc
    refine ⟨by simpa using h1, fun hlt => ?_⟩
    have hge : decide (32 ≤ c.toNat) = false := by
      simp [Nat.not_le.mpr hlt]
    rw [hge, Bool.false_or, Bool.or_eq_true, beq_iff_eq, beq_iff_eq] at h2
    exact h2

/-- Witness for C10 at a concrete input containing a null byte and a control
character. -/
theorem sanitize_input_idempotent_and_clean_witness :
    'a' ∈ sanitize_input ['a', Char.ofNat 0, Char.ofNat 7, '\n'] ∧
    'a' ≠ Char.ofNat 0 :=
  ⟨by decide,
   ((sanitize_input_idempotent_and_clean
      ['a', Char.ofNat 0, Char.ofNat 7, '\n']).2 'a' (by decide)).1⟩

/-! ### MetricsCollector (src/utils/metrics.py) -/

/-- One entry of the `requests` deque written by
`MetricsCollector.record_request` (metrics.py lines 23-33). -/
structure RequestEvent where
  rtype : String
  tool : Option String
  timestamp : Int
deriving DecidableEq, Repr

/-- One entry of the `errors` deque written by
`MetricsCollector.record_error` (metrics.py lines 43-52). -/
structure ErrorEvent where
  rtype : String
  tool : Option String
  error : String
  execution_time : Int
  timestamp : Int
deriving DecidableEq, Repr

/-- The `MetricsCollector` dataclass (metrics.py lines 13-21): a request ring
buffer (`deque(maxlen=10000)`), an error ring buffer (`deque(maxlen=1000)`),
the all-time per-tool usage counters, the per-tool latency histories, and the
recorder's creation time. -/
structure MetricsCollector where
  requests : List RequestEvent := []
  errors : List ErrorEvent := []
  tool_usage : List (String × Nat) := []
  response_times : List (String × List Int) := []
  start_time : Int := 0
deriving DecidableEq, Repr

/-- Python truthiness of an optional string (`if tool_name:`): `None` and the
empty string are falsy. -/
def pyTruthy : Option String → Bool
  | none => false
  | some s => s != ""

/-- `MetricsCollector.record_request` (metrics.py lines 23-33) with the clock
explicit: append a RequestEvent and, when a (truthy) tool name is given, bump
its all-time usage counter. -/
def record_request (m : MetricsCollector) (now : Int) (request_type : String)
    (tool_name : Option String) : MetricsCollector :=
  let ev : RequestEvent :=
    { rtype := request_type, tool := tool_name, timestamp := now }
  let m1 := { m with requests := appendCapped 10000 m.requests ev }
  match tool_name with
  | some t => if t != "" then { m1 with tool_usage := bumpCount m1.tool_usage t }
              else m1
  | none => m1

/-- `MetricsCollector.record_success` (metrics.py lines 35-41): append the
execution time to the tool's latency history, trimmed to the last 1000
samples. -/
def record_success (m : MetricsCollector) (request_type : String)
    (tool_name : Option String) (execution_time : Int) : MetricsCollector :=
  match tool_name with
  | some t =>
      if t != "" then
        let upd := getWindow m.response_times t ++ [execution_time]
        let upd := if 1000 < upd.length then upd.drop (upd.length - 1000) else upd
        { m with response_times := setWindow m.response_times t upd }
      else m
  | none => m

/-- `MetricsCollector.record_error` (metrics.py lines 43-52): append an
ErrorEvent to the bounded error buffer. -/
def record_error (m : MetricsCollector) (now : Int) (request_type : String)
    (tool_name : Option String) (error_message : String)
    (execution_time : Int) : MetricsCollector :=
  let ev : ErrorEvent :=
    { rtype := request_type, tool := tool_name, error := error_message,
      execution_time := execution_time, timestamp := now }
  { m with errors := appendCapped 1000 m.errors ev }

/-- `round(x, 2)` as applied to the success rate in `get_metrics`.  Python
rounds floats (half-to-even); this floor-based model agrees with it at every
value arising in this development (exact integers and the zero case). -/
def pyRound2 (q : ℚ) : ℚ := ((⌊q * 100 + 1/2⌋ : ℤ) : ℚ) / 100

/-- The dictionary returned by `MetricsCollector.get_metrics`
(metrics.py lines 92-101). -/
structure Aggregate where
  period_hours : Nat
  total_requests : Nat
  total_errors : Nat
  success_rate : ℚ
  tool_usage : List (String × Nat)
  avg_response_times : List (String × ℚ)
  error_breakdown : List (Option String × Nat)
  uptime_seconds : Int
deriving Repr

/-- `MetricsCollector.get_metrics` (metrics.py lines 54-101) with the clock
explicit.  `cutoff_time = now - timedelta(hours=hours)`; both buffers are
filtered to events strictly newer than the cutoff; the success rate is
`(total - errors) / total * 100` guarded by `total > 0`, reported through
`round(·, 2)`.  The error breakdown is keyed by `error.get("tool", "unknown")`;
every event written by `record_error` carries a `tool` key (possibly `None`),
so the key is just the event's optional tool name.  Per-tool average latency
is over the entire retained history, not the window. -/
def get_metrics (m : MetricsCollector) (now : Int) (hours : Nat) : Aggregate :=
  let cutoff := now - (hours : Int) * 3600
  let recent_requests := m.requests.filter (fun r => cutoff < r.timestamp)
  let recent_errors := m.errors.filter (fun e => cutoff < e.timestamp)
  let total_requests := recent_requests.length
  let total_errors := recent_errors.length
  let success_rate : ℚ :=
    if 0 < total_requests then
      ((total_requests : ℚ) - (total_errors : ℚ)) / (total_requests : ℚ) * 100
    else 0
  { period_hours := hours
    total_requests := total_requests
    total_errors := total_errors
    success_rate := pyRound2 success_rate
    tool_usage := recent_requests.foldl
      (fun acc r => if pyTruthy r.tool then bumpCount acc (r.tool.getD "") else acc) []
    avg_response_times := (m.response_times.filter (fun p => p.2.length != 0)).map
      (fun p => (p.1, ((p.2.sum : ℚ)) / (p.2.length : ℚ)))
    error_breakdown := recent_errors.foldl (fun acc e => bumpCount acc e.tool) []
    uptime_seconds := now - m.start_time }

/-- The parsed content of a metrics snapshot file as far as
`MetricsCollector.load_metrics` reads it.  `save_metrics` (metrics.py lines
127-138) writes `start_time`, `current_time`, `metrics`, `tool_usage` and
`recent_errors`; `load_metrics` (lines 140-154) reads back only `tool_usage`
(via `dict.update`) and `start_time` — the file I/O itself is an external
collaborator concern. -/
structure MetricsSnapshot where
  start_time : Int
  tool_usage : List (String × Nat)
deriving DecidableEq, Repr

/-- `MetricsCollector.load_metrics` (metrics.py lines 140-154) on an already
parsed snapshot: `self.tool_usage.update(data["tool_usage"])` followed by
`self.start_time = data["start_time"]`; nothing else is touched. -/
def load_metrics (m : MetricsCollector) (snap : MetricsSnapshot) :
    MetricsCollector :=
  { m with
    tool_usage := snap.tool_usage.foldl
      (fun acc kv => setCount acc kv.1 kv.2) m.tool_usage,
    start_time := snap.start_time }

/-! ### Lemmas about counters and the success rate -/

theorem lookup_setCount {κ : Type} [BEq κ] [LawfulBEq κ]
    (m : List (κ × Nat)) (k k' : κ) (v : Nat) :
    List.lookup k' (setCount m k v) =
      if k' == k then some v else List.lookup k' m := by
  induction m with
  | nil => cases h : k' == k <;> simp [setCount, List.lookup, h]
  | cons p rest ih =>
      obtain ⟨k₀, v₀⟩ := p
      cases h0 : k₀ == k
      · simp only [setCount, h0, Bool.false_eq_true, if_false]
        cases h1 : k' == k₀
        · simp [List.lookup, h1, ih]
        · have hk : k' = k₀ := eq_of_beq h1
          have h2 : (k' == k) = false := by rw [hk]; exact h0
          simp [List.lookup, h1, h2]
      · have hk : k₀ = k := eq_of_beq h0
        subst hk
        simp only [setCount, beq_self_eq_true, if_true]
        cases h1 : k' == k₀ <;> simp [List.lookup, h1]

/-- Effect of `dict.update(l)` on a single key: the last binding of `k` in
`l` wins, and keys absent from `l` keep their old binding. -/
theorem lookup_foldl_setCount {κ : Type} [BEq κ] [LawfulBEq κ]
    (l : List (κ × Nat)) (m : List (κ × Nat)) (k : κ) :
    List.lookup k (l.foldl (fun acc kv => setCount acc kv.1 kv.2) m) =
      (List.lookup k l.reverse).or (List.lookup k m) := by
  induction l generalizing m with
  | nil => simp
  | cons p tl ih =>
      obtain ⟨a, b⟩ := p
      have hfold : ((a, b) :: tl).foldl (fun acc kv => setCount acc kv.1 kv.2) m =
          tl.foldl (fun acc kv => setCount acc kv.1 kv.2) (setCount m a b) := rfl
      rw [hfold, ih]
      have hrev : ((a, b) :: tl).reverse = tl.reverse ++ [(a, b)] := by simp
      rw [hrev, List.lookup_append, Option.or_assoc]
      congr 1
      by_cases h : k == a
      · simp [List.lookup, h, lookup_setCount]
      · simp [List.lookup, h, lookup_setCount]

/-- The reported success rate, as a function of the windowed totals. -/
theorem get_metrics_success_rate (m : MetricsCollector) (now : Int)
    (hours : Nat) :
    (get_metrics m now hours).success_rate =
      pyRound2 (if 0 < (get_metrics m now hours).total_requests then
        (((get_metrics m now hours).total_requests : ℚ) -
            ((get_metrics m now hours).total_errors : ℚ)) /
          ((get_metrics m now hours).total_requests : ℚ) * 100
      else 0) := rfl

theorem pyRound2_zero : pyRound2 0 = 0 := by
  unfold pyRound2
  norm_num

theorem pyRound2_eighty : pyRound2 80 = 80 := by
  unfold pyRound2
  norm_num

theorem pyRound2_neg_hundred : pyRound2 (-100) = -100 := by
  unfold pyRound2
  norm_num

/-! ### Claim C7: success-rate arithmetic -/

/-- A recorder whose window holds 10 requests and 2 errors. -/
def c7Request : RequestEvent :=
  { rtype := "call_tool", tool := some "file_read", timestamp := 0 }

def c7Error : ErrorEvent :=
  { rtype := "call_tool", tool := some "file_read", error := "boom",
    execution_time := 0, timestamp := 0 }

def c7Metrics : MetricsCollector :=
  { requests := List.replicate 10 c7Request,
    errors := List.replicate 2 c7Error,
    tool_usage := [], response_times := [], start_time := 0 }

/-- C7: `get_metrics` reports success rate 0 whenever the windowed total
request count is 0 (the guard avoids the division), and a window of 10
requests with 2 errors yields exactly 80. -/
theorem success_rate_zero_on_empty_window_and_eighty_for_ten_two :
    (∀ (m : MetricsCollector) (now : Int) (hours : Nat),
      (get_metrics m now hours).total_requests = 0 →
      (get_metrics m now hours).success_rate = 0) ∧
    (get_metrics c7Metrics 0 24).total_requests = 10 ∧
    (get_metrics c7Metrics 0 24).total_errors = 2 ∧
    (get_metrics c7Metrics 0 24).success_rate = 80 := by
  refine ⟨?_, ?_, ?_, ?_⟩
  · intro m now hours h
    rw [get_metrics_success_rate, h]
    simpa using pyRound2_zero
  · decide
  · decide
  · rw [get_metrics_success_rate,
      show (get_metrics c7Metrics 0 24).total_requests = 10 from by decide,
      show (get_metrics c7Metrics 0 24).total_errors = 2 from by decide]
    norm_num
    simpa using pyRound2_eighty

/-- Witness for C7 on the empty recorder: 0 windowed requests and success
rate 0. -/
theorem success_rate_zero_on_empty_window_witness :
    (get_metrics ({} : MetricsCollector) 0 24).total_requests = 0 ∧
    (get_metrics ({} : MetricsCollector) 0 24).success_rate = 0 :=
  ⟨by decide,
   success_rate_zero_on_empty_window_and_eighty_for_ten_two.1
     ({} : MetricsCollector) 0 24 (by decide)⟩

/-! ### Claim C8: load_metrics touches only tool_usage and start_time -/

/-- C8: loading a snapshot replaces `start_time`, merges the snapshot's
`tool_usage` counters into the recorder's (snapshot values win on common
keys, untouched keys keep their old counts), and leaves the request buffer,
error buffer and latency histories exactly as they were. -/
theorem load_metrics_frame_and_merge (m : MetricsCollector)
    (snap : MetricsSnapshot) :
    (load_metrics m snap).requests = m.requests ∧
    (load_metrics m snap).errors = m.errors ∧
    (load_metrics m snap).response_times = m.response_times ∧
    (load_metrics m snap).start_time = snap.start_time ∧
    ∀ k : String, List.lookup k (load_metrics m snap).tool_usage =
      (List.lookup k snap.tool_usage.reverse).or (List.lookup k m.tool_usage) := by
  refine ⟨rfl, rfl, rfl, rfl, fun k => ?_⟩
  exact lookup_foldl_setCount snap.tool_usage m.tool_usage k

/-! ### Dispatcher and routing (src/server.py) -/

/-- A tool call's argument mapping (JSON object), opaque to the dispatcher. -/
abbrev Args := List (String × String)

/-- The seven domain groups `_route_tool_call` recognises by prefix. -/
inductive ToolDomain
  | file | system | web | code | git | db | ai
deriving DecidableEq, Repr

/-- Python's `str.startswith`, evaluated over the strings' code points. -/
def strStartsWith (s p : String) : Bool := p.data.isPrefixOf s.data

/-- The prefix cascade of `MCPServer._route_tool_call` (server.py lines
212-244): the first matching domain prefix wins; a name with no recognised
prefix raises `Unknown tool: ...`. -/
def route_domain (tool_name : String) : Option ToolDomain :=
  if strStartsWith tool_name "file_" then some .file
  else if strStartsWith tool_name "system_" then some .system
  else if strStartsWith tool_name "web_" then some .web
  else if strStartsWith tool_name "code_" then some .code
  else if strStartsWith tool_name "git_" then some .git
  else if strStartsWith tool_name "db_" then some .db
  else if strStartsWith tool_name "ai_" then some .ai
  else none

/-- The per-domain tool objects (`state.file_tools` … `state.ai_tools`) are
external collaborators: each `handle_tool_call(tool_name, arguments)` either
returns a result dictionary (serialised here as a string) or raises (the
exception's message). -/
def Handlers : Type := ToolDomain → String → Args → Except String String

/-- `MCPServer._route_tool_call` (server.py lines 212-244): dispatch on the
name's domain prefix, handing the full name to that domain's handler;
an unrecognised prefix raises. -/
def route_tool_call (handlers : Handlers) (tool_name : String) (args : Args) :
    Except String String :=
  match route_domain tool_name with
  | some d => handlers d tool_name args
  | none => Except.error ("Unknown tool: " ++ tool_name)

/-- The server-owned mutable state that `handle_call_tool` touches. -/
structure ServerState where
  security : SecurityManager := {}
  metrics : MetricsCollector := {}
deriving Repr

/-- The value `handle_call_tool` returns: a `CallToolResult` whose single
text content is either the JSON-dumped handler result or an `Error: ...`
string with `isError=True`. -/
structure CallToolResult where
  text : String
  isError : Bool
deriving DecidableEq, Repr

/-- `MCPServer.handle_call_tool` (server.py lines 170-210), the Dispatcher,
with the clock explicit (the model is instantaneous, so recorded execution
times are 0).  Order of operations, exactly as in the source: the allow-list
check raises first; then `check_rate_limit` (whose lazy eviction mutates the
security state even on rejection) raises; only then is `record_request`
called, the call routed, and a success or error recorded.  Every raise is
caught by the method's own `except` clause, which records an ErrorEvent and
returns an `isError` result. -/
def handle_call_tool (handlers : Handlers) (st : ServerState)
    (tool_name : String) (args : Args) (now : Int) :
    CallToolResult × ServerState :=
  if is_tool_allowed st.security tool_name then
    let rl := check_rate_limit st.security tool_name now
    if rl.1 then
      let m1 := record_request st.metrics now "call_tool" (some tool_name)
      match route_tool_call handlers tool_name args with
      | Except.ok result =>
          ({ text := result, isError := false },
           { security := rl.2,
             metrics := record_success m1 "call_tool" (some tool_name) 0 })
      | Except.error e =>
          ({ text := "Error: " ++ e, isError := true },
           { security := rl.2,
             metrics := record_error m1 now "call_tool" (some tool_name) e 0 })
    else
      let msg := "Rate limit exceeded for tool '" ++ tool_name ++ "'"
      ({ text := "Error: " ++ msg, isError := true },
       { security := rl.2,
         metrics := record_error st.metrics now "call_tool" (some tool_name) msg 0 })
  else
    let msg := "Tool '" ++ tool_name ++ "' is not allowed"
    ({ text := "Error: " ++ msg, isError := true },
     { security := st.security,
       metrics := record_error st.metrics now "call_tool" (some tool_name) msg 0 })

/-! ### The stdio request loop (src/server.py `main`, lines 328-418) -/

/-- One decoded inbound JSON-RPC message: `message.get("id")`,
`message.get("method")`, and the `name` / `arguments` entries of
`params`. -/
structure Message where
  id : Option String
  method : Option String
  paramName : Option String
  paramArgs : Args
deriving DecidableEq, Repr

/-- A response body: either a `result` payload or a JSON-RPC
`error:{code, message}`. -/
inductive RespBody
  | result
  | error (code : Int) (message : String)
deriving DecidableEq, Repr

/-- The single response `main` prints for one decoded message: its `id` is
always `message.get("id")`. -/
structure Response where
  id : Option String
  body : RespBody
deriving DecidableEq, Repr

/-- `str(None)` / `str(s)` for the `Method not found: {method}` message. -/
def pyStr : Option String → String
  | none => "None"
  | some s => s

/-- One iteration of `main`'s stdio loop (server.py lines 340-418) on an
already decoded message.  Branches: `initialize` and `tools/list` build
result payloads; `tools/call` invokes `server.handle_call_tool(tool_name,
arguments)` — two positional arguments passed to a method declared as
`handle_call_tool(self, request)` (line 170), so the call raises `TypeError`
before the dispatcher body runs, and the branch's `except Exception` turns it
into a `-32603` error response; every other method falls through to the
`-32601` "Method not found" response.  Exactly one response is printed per
decoded message, and no branch mutates the server state. -/
def mainStep (msg : Message) : Response :=
  if msg.method = some "initialize" then
    { id := msg.id, body := RespBody.result }
  else if msg.method = some "tools/list" then
    { id := msg.id, body := RespBody.result }
  else if msg.method = some "tools/call" then
    { id := msg.id,
      body := RespBody.error (-32603)
        "handle_call_tool() takes 2 positional arguments but 3 were given" }
  else
    { id := msg.id,
      body := RespBody.error (-32601)
        ("Method not found: " ++ pyStr msg.method) }

/-- The JSON-RPC error code of a response, if it is an error. -/
def respErrorCode (r : Response) : Option Int :=
  match r.body with
  | RespBody.result => none
  | RespBody.error c _ => some c

/-- `(appendCapped cap xs x).length`: one more element, clipped at the
capacity. -/
theorem length_appendCapped (cap : Nat) (xs : List α) (x : α) :
    (appendCapped cap xs x).length = min (xs.length + 1) cap := by
  simp [appendCapped]
  omega

/-! ### Claim C4: response-id echo -/

/-- C4: every branch of the stdio loop — initialize, tools/list, tools/call
(success or error) and unknown method — produces exactly one response whose
`id` is the request's `id`; in particular a request with no id yields a
response with no id. -/
theorem response_id_echoes_request_id (msg : Message) :
    (mainStep msg).id = msg.id := by
  unfold mainStep
  split_ifs <;> rfl

/-! ### Claim C2: unknown tool name on tools/call -/

/-- A `tools/call` request for a tool that does not exist. -/
def c2Message : Message :=
  { id := some "abc123", method := some "tools/call",
    paramName := some "nonexistent_tool", paramArgs := [] }

/-- C2 counterexample: a `tools/call` for `"nonexistent_tool"` is answered
with JSON-RPC error code `-32603`, not the method-not-found code `-32601`
the claim requires. -/
theorem unknown_tool_call_answered_with_32603_not_32601 :
    respErrorCode (mainStep c2Message) = some (-32603) ∧
    respErrorCode (mainStep c2Message) ≠ some (-32601) := by
  decide

/-- C2 amended: a `tools/call` request always yields exactly one error
response with code `-32603` (the branch's call into the dispatcher passes
`(tool_name, arguments)` to a method declared with a single `request`
parameter, and the resulting `TypeError` is caught by the branch's `except`);
`-32601` is produced only for unrecognised methods; and a tool name that is
not on the allow-list is never routed to any handler — the dispatcher's
outcome is independent of the handlers. -/
theorem unknown_tool_call_error_codes :
    (∀ (id name : Option String) (args : Args),
      respErrorCode (mainStep
        { id := id, method := some "tools/call",
          paramName := name, paramArgs := args }) = some (-32603)) ∧
    (∀ msg : Message,
      msg.method ∉ [some "initialize", some "tools/list", some "tools/call"] →
      respErrorCode (mainStep msg) = some (-32601)) ∧
    (∀ (f g : Handlers) (st : ServerState) (name : String) (args : Args)
      (now : Int), is_tool_allowed st.security name = false →
      handle_call_tool f st name args now = handle_call_tool g st name args now) := by
  refine ⟨?_, ?_, ?_⟩
  · intro id name args
    rfl
  · intro msg hm
    simp only [List.mem_cons, List.not_mem_nil, or_false, not_or] at hm
    obtain ⟨h1, h2, h3⟩ := hm
    simp [mainStep, respErrorCode, h1, h2, h3]
  · intro f g st name args now h
    simp [handle_call_tool, h]

/-- Witness for the amended C2 at concrete inputs: an unrecognised method
gets `-32601`, and the unauthorized-name dispatcher outcome does not depend
on the handlers. -/
theorem unknown_tool_call_error_codes_witness :
    respErrorCode (mainStep
      { id := some "abc123", method := some "bogus/method",
        paramName := none, paramArgs := [] }) = some (-32601) ∧
    handle_call_tool (fun _ _ _ => Except.ok "A") ({} : ServerState)
        "nonexistent_tool" [] 0 =
      handle_call_tool (fun _ _ _ => Except.ok "B") ({} : ServerState)
        "nonexistent_tool" [] 0 :=
  ⟨unknown_tool_call_error_codes.2.1 _ (by decide),
   unknown_tool_call_error_codes.2.2 _ _ ({} : ServerState)
     "nonexistent_tool" [] 0 (by decide)⟩

/-! ### Claim C3: when is a RequestEvent recorded? -/

/-- Handlers that succeed on every call (the handler is an external
collaborator; any instance suffices for these scenarios). -/
def okHandlers : Handlers := fun _ _ _ => Except.ok "{}"

def c3After : CallToolResult × ServerState :=
  handle_call_tool okHandlers ({} : ServerState) "nonexistent_tool" [] 0

/-- C3 counterexample: an unauthorized `call_tool` request (tool not on the
allow-list) appends NO RequestEvent — the request buffer stays empty — while
one ErrorEvent is recorded; `record_request` does not run before the
authorization check. -/
theorem unauthorized_call_appends_no_request_event :
    c3After.2.metrics.requests.length = 0 ∧
    c3After.2.metrics.errors.length = 1 ∧
    c3After.1.isError = true := by
  decide

/-- C3 amended: `record_request` runs only after both the allow-list check
and the rate-limit check pass; a request rejected as unauthorized leaves the
request buffer exactly unchanged and appends exactly one ErrorEvent. -/
theorem request_event_only_after_authorization (handlers : Handlers)
    (st : ServerState) (tool : String) (args : Args) (now : Int)
    (h : is_tool_allowed st.security tool = false) :
    (handle_call_tool handlers st tool args now).2.metrics.requests =
      st.metrics.requests ∧
    (handle_call_tool handlers st tool args now).2.metrics.errors.length =
      min (st.metrics.errors.length + 1) 1000 ∧
    (handle_call_tool handlers st tool args now).1.isError = true := by
  simp [handle_call_tool, h, record_error, length_appendCapped]

/-- Witness for the amended C3 at a concrete unauthorized call. -/
theorem request_event_only_after_authorization_witness :
    (handle_call_tool okHandlers ({} : ServerState) "db_drop" [] 0).2.metrics.requests =
      ({} : ServerState).metrics.requests ∧
    (handle_call_tool okHandlers ({} : ServerState) "db_drop" [] 0).2.metrics.errors.length =
      min (({} : ServerState).metrics.errors.length + 1) 1000 ∧
    (handle_call_tool okHandlers ({} : ServerState) "db_drop" [] 0).1.isError = true :=
  request_event_only_after_authorization okHandlers ({} : ServerState)
    "db_drop" [] 0 (by decide)

/-! ### Claim C9: errors can outnumber requests, driving the rate negative -/

def c9Step1 : CallToolResult × ServerState :=
  handle_call_tool okHandlers ({} : ServerState) "file_read" [] 0

def c9Step2 : CallToolResult × ServerState :=
  handle_call_tool okHandlers c9Step1.2 "nonexistent_tool" [] 0

def c9Step3 : CallToolResult × ServerState :=
  handle_call_tool okHandlers c9Step2.2 "nonexistent_tool" [] 0

/-- C9: after one admitted successful call and two unauthorized calls within
the window, `get_metrics` reports more errors than requests (2 > 1) and a
strictly negative success rate (-100): unauthorized calls record an
ErrorEvent without a matching RequestEvent. -/
theorem errors_can_outnumber_requests_making_success_rate_negative :
    (get_metrics c9Step3.2.metrics 0 24).total_requests = 1 ∧
    (get_metrics c9Step3.2.metrics 0 24).total_errors = 2 ∧
    (get_metrics c9Step3.2.metrics 0 24).total_requests <
      (get_metrics c9Step3.2.metrics 0 24).total_errors ∧
    (get_metrics c9Step3.2.metrics 0 24).success_rate < 0 := by
  refine ⟨by decide, by decide, by decide, ?_⟩
  rw [get_metrics_success_rate,
    show (get_metrics c9Step3.2.metrics 0 24).total_requests = 1 from by decide,
    show (get_metrics c9Step3.2.metrics 0 24).total_errors = 2 from by decide]
  norm_num [pyRound2]

end MCP
